import Mathlib

/-!
Verification development for the `image_engine.py` true-alpha RGBA image
generator.  The Python source is embedded shallowly:

* machine-level pixel buffers become a structure with integer dimensions and a
  pixel function;
* the pure prompt-analysis functions (`prompt_to_colors`, `detect_style`,
  the flower species table, `verify_alpha`, the resolution clamp and the
  rng-seed selection expression) are translated literally;
* `hashlib.md5` is implemented in full (it is platform stable);
* Python's builtin `hash` is a per-process salted string hash, so it is a
  parameter of type `PyHash` — two different parameter values model two
  processes with different hash salts;
* the geometric rasterization performed through PIL (`ImageDraw` calls,
  Gaussian blur, `alpha_composite` with a same-size layer) consists of
  operations that never change the size or the RGBA mode of the buffer being
  drawn on; each generator keeps its source structure (canvas creation of the
  configured size, seeding, then in-place drawing) with the drawn pixel values
  supplied by a `Draws` parameter of dimension-preserving pixel passes.

Rational arithmetic stands in for CPython float arithmetic; all values reached
by the analysed claims are small rationals where both agree (`int()` is
truncation toward zero, `%` is mathematical mod for a positive modulus).
-/

namespace ImageEngine

/-- RGBA pixel: the four channels of one cell of a PIL "RGBA" buffer /
NumPy `(H, W, 4)` array.  Exactly four channels by construction. -/
structure RGBA where
  r : ℤ
  g : ℤ
  b : ℤ
  a : ℤ
deriving DecidableEq, Repr

/-- An RGB triple, as used by the palette table of `prompt_to_colors`. -/
abbrev RGB := ℤ × ℤ × ℤ

/-- The `(c1, c2, c3)` palette produced by `prompt_to_colors`. -/
abbrev Palette := RGB × RGB × RGB

/-- A PIL image: mode string, size, and the pixel at each coordinate.
Coordinates outside `[0, width) × [0, height)` are irrelevant padding. -/
structure Image where
  mode : String
  width : ℤ
  height : ℤ
  px : ℤ → ℤ → RGBA

/-- The `ImageStyle` enum of the source (14 tags). -/
inductive ImageStyle where
  | AUTO
  | GEOMETRIC
  | GRADIENT
  | GLOW
  | STARBURST
  | BADGE
  | PORTRAIT
  | LANDSCAPE
  | TEXT_ART
  | MANDALA
  | WAVE
  | PIXEL
  | FLOWER
  | ISOMETRIC
deriving DecidableEq, Repr

/-- The string value of each `ImageStyle` enum member. -/
def ImageStyle.value : ImageStyle → String
  | .AUTO => "auto"
  | .GEOMETRIC => "geometric"
  | .GRADIENT => "gradient"
  | .GLOW => "glow"
  | .STARBURST => "starburst"
  | .BADGE => "badge"
  | .PORTRAIT => "portrait"
  | .LANDSCAPE => "landscape"
  | .TEXT_ART => "text_art"
  | .MANDALA => "mandala"
  | .WAVE => "wave"
  | .PIXEL => "pixel"
  | .FLOWER => "flower"
  | .ISOMETRIC => "isometric"

/-- `GenerationConfig` dataclass of the source. `seed : Optional[int]`. -/
structure GenerationConfig where
  prompt : String
  width : ℤ
  height : ℤ
  style : ImageStyle
  seed : Option ℤ

/-- `GenerationResult` dataclass of the source. -/
structure GenerationResult where
  image : Image
  style_used : String
  alpha_verified : Bool
  transparent_pct : ℚ

/-- Python's builtin `hash` restricted to strings: salted per process
(`PYTHONHASHSEED`), hence modelled as a parameter; two different values of
this parameter model two different processes. -/
def PyHash : Type := String → ℤ

/-- The seed selection expression `cfg.seed or hash(cfg.prompt) % 99999`
shared by every rng-using generator (src lines 138, 194, 279, 316, 381, 452,
483, 650).  Python truthiness: `None` and `0` both select the right operand;
Python `%` on a positive modulus is `Int.emod`. -/
def rng_seed (h : PyHash) (cfg : GenerationConfig) : ℤ :=
  match cfg.seed with
  | some s => if s = 0 then h cfg.prompt % 99999 else s
  | none => h cfg.prompt % 99999

/-- Python `str.lower()` (the prompts analysed here are ASCII, where
`Char.toLower` agrees with CPython). -/
def pyLower (s : String) : String := String.mk (s.data.map Char.toLower)

/-- Whether the first list is an initial segment of the second. -/
def listStarts : List Char → List Char → Bool
  | [], _ => true
  | _ :: _, [] => false
  | a :: l1, b :: l2 => decide (a = b) && listStarts l1 l2

/-- Whether the first list occurs contiguously inside the second. -/
def listIn : List Char → List Char → Bool
  | l1, [] => l1.isEmpty
  | l1, b :: l2 => listStarts l1 (b :: l2) || listIn l1 l2

/-- Python substring membership `needle in hay` (also `re.search` for the
palette keywords, none of which contains a regex metacharacter). -/
def strContains (hay needle : String) : Bool :=
  listIn needle.data hay.data

/-- Split a character list at a separator character (Python `str.split`). -/
def splitChar (sep : Char) : List Char → List Char → List (List Char)
  | [], acc => [acc.reverse]
  | c :: rest, acc =>
    if c = sep then acc.reverse :: splitChar sep rest []
    else splitChar sep rest (c :: acc)

/-- Python `keywords.split("|")` on a one-character separator. -/
def splitBar (s : String) : List String :=
  (splitChar (Char.ofNat 124) s.data []).map String.mk

/-!  MD5 (RFC 1321), used by the palette hash fallback
`int(hashlib.md5(prompt.encode()).hexdigest()[:6], 16)`.  All 32-bit words are
naturals kept below `2^32`. -/

/-- UTF-8 encoding of one code point (Python `str.encode()`). -/
def utf8Bytes (c : ℕ) : List ℕ :=
  if c < 128 then [c]
  else if c < 2048 then [192 + c / 64, 128 + c % 64]
  else if c < 65536 then [224 + c / 4096, 128 + c / 64 % 64, 128 + c % 64]
  else [240 + c / 262144, 128 + c / 4096 % 64, 128 + c / 64 % 64, 128 + c % 64]

/-- The UTF-8 bytes of a string (Python `s.encode()`). -/
def strBytes (s : String) : List ℕ :=
  s.toList.foldr (fun c acc => utf8Bytes c.toNat ++ acc) []

/-- Rotate a 32-bit word left by `c` (0 < c < 32). -/
def rotl32 (x c : ℕ) : ℕ :=
  ((x <<< c) % 4294967296) ||| (x >>> (32 - c))

/-- The 64 MD5 sine constants `floor(2^32 * abs(sin(i+1)))`. -/
def md5K : List ℕ :=
  [3614090360, 3905402710, 606105819, 3250441966, 4118548399, 1200080426,
   2821735955, 4249261313, 1770035416, 2336552879, 4294925233, 2304563134,
   1804603682, 4254626195, 2792965006, 1236535329, 4129170786, 3225465664,
   643717713, 3921069994, 3593408605, 38016083, 3634488961, 3889429448,
   568446438, 3275163606, 4107603335, 1163531501, 2850285829, 4243563512,
   1735328473, 2368359562, 4294588738, 2272392833, 1839030562, 4259657740,
   2763975236, 1272893353, 4139469664, 3200236656, 681279174, 3936430074,
   3572445317, 76029189, 3654602809, 3873151461, 530742520, 3299628645,
   4096336452, 1126891415, 2878612391, 4237533241, 1700485571, 2399980690,
   4293915773, 2240044497, 1873313359, 4264355552, 2734768916, 1309151649,
   4149444226, 3174756917, 718787259, 3951481745]

/-- The 64 MD5 per-round left-rotation amounts. -/
def md5S : List ℕ :=
  [7, 12, 17, 22, 7, 12, 17, 22, 7, 12, 17, 22, 7, 12, 17, 22,
   5, 9, 14, 20, 5, 9, 14, 20, 5, 9, 14, 20, 5, 9, 14, 20,
   4, 11, 16, 23, 4, 11, 16, 23, 4, 11, 16, 23, 4, 11, 16, 23,
   6, 10, 15, 21, 6, 10, 15, 21, 6, 10, 15, 21, 6, 10, 15, 21]

/-- The MD5 nonlinear function of round `i` applied to `(b, c, d)`. -/
def md5F (b c d i : ℕ) : ℕ :=
  if i < 16 then (b &&& c) ||| ((b ^^^ 4294967295) &&& d)
  else if i < 32 then (d &&& b) ||| ((d ^^^ 4294967295) &&& c)
  else if i < 48 then b ^^^ c ^^^ d
  else c ^^^ (b ||| (d ^^^ 4294967295))

/-- The MD5 message-word index of round `i`. -/
def md5G (i : ℕ) : ℕ :=
  if i < 16 then i
  else if i < 32 then (5 * i + 1) % 16
  else if i < 48 then (3 * i + 5) % 16
  else (7 * i) % 16

/-- One MD5 round step on the state `(a, b, c, d)` with message words `m`. -/
def md5Step (m : List ℕ) (st : ℕ × ℕ × ℕ × ℕ) (i : ℕ) : ℕ × ℕ × ℕ × ℕ :=
  match st with
  | (a, b, c, d) =>
    let f := (md5F b c d i + a + md5K.getD i 0 + m.getD (md5G i) 0) % 4294967296
    (d, (b + rotl32 f (md5S.getD i 0)) % 4294967296, b, c)

/-- Process one 64-byte block: split into 16 little-endian words, run the 64
round steps, add into the chaining state. -/
def md5Block (st : ℕ × ℕ × ℕ × ℕ) (block : List ℕ) : ℕ × ℕ × ℕ × ℕ :=
  let m := (List.range 16).map (fun j =>
    block.getD (4 * j) 0 + block.getD (4 * j + 1) 0 * 256 +
    block.getD (4 * j + 2) 0 * 65536 + block.getD (4 * j + 3) 0 * 16777216)
  match (List.range 64).foldl (md5Step m) st with
  | (a, b, c, d) =>
    match st with
    | (a0, b0, c0, d0) =>
      ((a0 + a) % 4294967296, (b0 + b) % 4294967296,
       (c0 + c) % 4294967296, (d0 + d) % 4294967296)

/-- MD5 padding: append `0x80`, zero-fill to 56 mod 64, append the 64-bit
little-endian bit length. -/
def md5Pad (msg : List ℕ) : List ℕ :=
  let len := msg.length
  let zeros := (119 - len % 64) % 64
  let bitLen := (8 * len) % 18446744073709551616
  msg ++ [128] ++ List.replicate zeros 0 ++
    (List.range 8).map (fun j => bitLen / 256 ^ j % 256)

/-- Split a list (whose length is a multiple of 64) into 64-byte blocks. -/
def chunks64 (l : List ℕ) : List (List ℕ) :=
  (List.range (l.length / 64)).map (fun i => (l.drop (64 * i)).take 64)

/-- The MD5 digest state of a byte message. -/
def md5Digest (msg : List ℕ) : ℕ × ℕ × ℕ × ℕ :=
  (chunks64 (md5Pad msg)).foldl md5Block
    (1732584193, 4023233417, 2562383102, 271733878)

/-- `int(hashlib.md5(s.encode()).hexdigest()[:6], 16)`: the first three bytes
of the digest (the low three bytes of the little-endian first state word),
read as a big-endian hex number. -/
def md5hex6 (s : String) : ℕ :=
  match md5Digest (strBytes s) with
  | (a, _, _, _) =>
    (a % 256) * 65536 + (a / 256 % 256) * 256 + (a / 65536 % 256)

/-!  colorsys and the palette table. -/

/-- Python `int(q)` for a rational: truncation toward zero. -/
def pyInt (q : ℚ) : ℤ := if q < 0 then -⌊-q⌋ else ⌊q⌋

/-- `colorsys.hsv_to_rgb`, translated clause for clause (exact rational
arithmetic in place of floats). -/
def hsv_to_rgb (h s v : ℚ) : ℚ × ℚ × ℚ :=
  if s = 0 then (v, v, v)
  else
    let i0 : ℤ := pyInt (h * 6)
    let f : ℚ := h * 6 - (i0 : ℚ)
    let p : ℚ := v * (1 - s)
    let q : ℚ := v * (1 - s * f)
    let t : ℚ := v * (1 - s * (1 - f))
    let i := i0 % 6
    if i = 0 then (v, t, p)
    else if i = 1 then (q, v, p)
    else if i = 2 then (p, v, t)
    else if i = 3 then (p, q, v)
    else if i = 4 then (t, p, v)
    else (v, p, q)

/-- `[int(x*255) for x in colorsys.hsv_to_rgb(h, s, v)]` as an RGB triple. -/
def rgb_of_hsv (h s v : ℚ) : RGB :=
  match hsv_to_rgb h s v with
  | (x, y, z) => (pyInt (x * 255), pyInt (y * 255), pyInt (z * 255))

/-- The ordered keyword→palette table of `prompt_to_colors` (src lines
53-64); insertion order of the Python dict is preserved. -/
def palettes : List (String × Palette) :=
  [("merah|red|api|fire|marah|cinta|love", ((220, 50, 70), (255, 120, 80), (180, 20, 40))),
   ("biru|blue|laut|ocean|langit|sky|air", ((30, 100, 220), (80, 180, 255), (10, 60, 160))),
   ("hijau|green|alam|nature|hutan|forest", ((40, 180, 80), (100, 220, 120), (20, 120, 50))),
   ("kuning|yellow|matahari|sun|emas|gold", ((255, 200, 30), (255, 240, 100), (200, 140, 0))),
   ("ungu|purple|violet|mistis|mystic|magic", ((140, 50, 200), (200, 100, 255), (80, 20, 140))),
   ("orange|jingga|senja|sunset|autumn", ((255, 120, 30), (255, 180, 80), (200, 70, 10))),
   ("pink|merah muda|bunga|flower|sakura", ((255, 100, 160), (255, 180, 210), (200, 50, 120))),
   ("putih|white|bersih|clean|salju|snow", ((220, 230, 240), (255, 255, 255), (180, 190, 210))),
   ("hitam|black|gelap|dark|malam|night", ((30, 30, 50), (80, 80, 120), (10, 10, 20))),
   ("cyan|tosca|turquoise", ((0, 180, 200), (80, 220, 230), (0, 120, 140)))]

/-- `any(re.search(kw, p) for kw in keywords.split("|"))`: the keywords are
regex-metacharacter free, so `re.search` is substring search. -/
def palette_match (p : String) (keywords : String) : Bool :=
  (splitBar keywords).any (fun kw => strContains p kw)

/-- The `# Default: hash prompt` fallback of `prompt_to_colors` (src lines
69-75): md5-derived base hue, then three HSV colors at hue offsets 0, +0.3
and +0.6 of a turn (each wrapped by `% 1`). -/
def hash_palette (prompt : String) : Palette :=
  let h : ℤ := (md5hex6 prompt : ℤ)
  let hue : ℚ := ((h % 360 : ℤ) : ℚ) / 360
  (rgb_of_hsv hue (7/10) (9/10),
   rgb_of_hsv (Int.fract (hue + 3/10)) (6/10) 1,
   rgb_of_hsv (Int.fract (hue + 6/10)) (8/10) (7/10))

/-- The fallback palette as the SPEC words it (for comparison with
`hash_palette`): same base hue, but secondary at hue `+0.33` of a turn and
tertiary at hue `+0.66` of a turn. -/
def hash_palette_spec (prompt : String) : Palette :=
  let h : ℤ := (md5hex6 prompt : ℤ)
  let hue : ℚ := ((h % 360 : ℤ) : ℚ) / 360
  (rgb_of_hsv hue (7/10) (9/10),
   rgb_of_hsv (Int.fract (hue + 33/100)) (6/10) 1,
   rgb_of_hsv (Int.fract (hue + 66/100)) (8/10) (7/10))

/-- `prompt_to_colors` (src lines 50-75): first matching table entry wins,
else the hash fallback. -/
def prompt_to_colors (prompt : String) : Palette :=
  match palettes.find? (fun kc => palette_match (pyLower prompt) kc.1) with
  | some kc => kc.2
  | none => hash_palette prompt

/-- The ordered (style, keyword list) rule table of `detect_style` (src lines
81-95). -/
def style_rules : List (ImageStyle × List String) :=
  [(.FLOWER, ["bunga", "flower", "petal", "rose", "mawar", "sakura", "flora", "bloom", "blossom", "lotus", "teratai", "dahlia", "tulip"]),
   (.ISOMETRIC, ["isometric", "isometri", "3d", "cube", "kubus", "kota", "city", "building", "gedung", "perspektif", "voxel", "minecraft"]),
   (.MANDALA, ["mandala", "pola", "pattern", "simetri", "symmetric", "spiritual"]),
   (.WAVE, ["gelombang", "wave", "cair", "liquid", "fluid", "ombak", "laut", "ocean"]),
   (.GLOW, ["cahaya", "glow", "neon", "bercahaya", "radiant", "glowing", "shine"]),
   (.STARBURST, ["bintang", "star", "sinar", "sun", "matahari", "burst", "ray", "cahaya matahari"]),
   (.BADGE, ["badge", "icon", "logo", "sticker", "label", "emblem", "shield"]),
   (.PORTRAIT, ["wajah", "face", "orang", "person", "manusia", "human", "portrait", "karakter"]),
   (.LANDSCAPE, ["pemandangan", "landscape", "alam", "nature", "gunung", "mountain"]),
   (.TEXT_ART, ["teks", "text", "tulisan", "kata", "word", "huruf", "typography", "font"]),
   (.GRADIENT, ["gradien", "gradient", "warna", "colorful", "pelangi", "rainbow", "abstract"]),
   (.PIXEL, ["pixel", "piksel", "retro", "8bit", "game", "sprite"]),
   (.GEOMETRIC, ["geometri", "geometric", "bentuk", "shape", "sudut", "angular", "abstract"])]

/-- `detect_style` (src lines 78-99): first rule with any keyword occurring
in the lower-cased prompt wins; default `GEOMETRIC`. -/
def detect_style (prompt : String) : ImageStyle :=
  ((style_rules.find?
    (fun rule => rule.2.any (fun kw => strContains (pyLower prompt) kw))).map
    Prod.fst).getD .GEOMETRIC

/-!  The canvas model.

PIL operations used by the generators and their effect on buffer shape:
`ImageDraw` primitives (polygon, ellipse, line, rectangle, rounded
rectangle, text) draw in place, changing pixel values only; `filter` with a
Gaussian blur returns an image of the same size and mode; and
`Image.alpha_composite(a, b)` requires `a` and `b` to have equal size and
returns that size.  Hence every generator body after its canvas creation is a
sequence of dimension- and mode-preserving pixel transformations.  The pixel
values these transformations write involve float geometry, font files and the
NumPy PCG64 stream, so the transformations themselves are supplied by a
`Draws` parameter, as functions of everything the source feeds them: the rng
seed expression, the config and the palette. -/

/-- A total pixel assignment. -/
def PxFun : Type := ℤ → ℤ → RGBA

/-- A dimension- and mode-preserving transformation of the pixel grid: the
shape of every in-place PIL drawing call, same-size `alpha_composite`, and
same-size blur used by the generators. -/
def PixelPass : Type := PxFun → PxFun

/-- `PIL.Image.new(mode, (width, height), color)`. -/
def Image.new (mode : String) (width height : ℤ) (color : RGBA) : Image :=
  { mode := mode, width := width, height := height, px := fun _ _ => color }

/-- `new_canvas` (src lines 102-106): an RGBA canvas filled with
`(0, 0, 0, 0)` — every pixel fully transparent.  (The source also returns an
`ImageDraw` handle onto the same buffer; drawing through it is modelled by
`PixelPass` application.) -/
def new_canvas (width height : ℤ) : Image :=
  Image.new "RGBA" width height { r := 0, g := 0, b := 0, a := 0 }

/-- Run a list of in-place drawing steps over an image, left to right. -/
def Image.applyPasses (img : Image) (passes : List PixelPass) : Image :=
  { mode := img.mode, width := img.width, height := img.height,
    px := passes.foldl (fun f pass => pass f) img.px }

/-- The number of pixels of the in-range grid whose alpha is exactly 0
(`np.sum(alpha == 0)` over the `(H, W)` alpha plane). -/
def countAlpha0 (img : Image) : ℕ :=
  ((List.range img.height.toNat).map (fun y : ℕ =>
    ((List.range img.width.toNat).filter
      (fun x : ℕ => decide ((img.px (x : ℤ) (y : ℤ)).a = 0))).length)).sum

/-- Python `round(x, 2)` on the small exact values arising here: round to the
nearest multiple of 1/100. -/
def round2 (x : ℚ) : ℚ := ((round (x * 100) : ℤ) : ℚ) / 100

/-- `verify_alpha` (src lines 109-114): `(any(alpha == 0),
round(100.0 * sum(alpha == 0) / alpha.size, 2))`. -/
def verify_alpha (img : Image) : Bool × ℚ :=
  (decide (0 < countAlpha0 img),
   round2 (100 * (countAlpha0 img : ℚ) / ((img.width : ℚ) * (img.height : ℚ))))

/-- The per-style drawing effects (see the module comment): for each style,
the pixel content its PIL calls produce, as a function of the data the source
feeds those calls.  Styles whose source contains no `default_rng` call get no
seed argument. -/
structure Draws where
  geometric : ℤ → GenerationConfig → Palette → List PixelPass
  gradient : GenerationConfig → Palette → PxFun
  glow : ℤ → GenerationConfig → Palette → List PixelPass
  starburst : GenerationConfig → Palette → PxFun
  badge : GenerationConfig → Palette → List PixelPass
  mandala : ℤ → GenerationConfig → Palette → List PixelPass
  wave : ℤ → GenerationConfig → Palette → PxFun
  portrait : GenerationConfig → Palette → List PixelPass
  landscape : ℤ → GenerationConfig → Palette → List PixelPass
  text_art : GenerationConfig → Palette → List PixelPass
  pixel : ℤ → GenerationConfig → Palette → List PixelPass
  flowerRand : ℤ → ℤ × ℤ × ℚ
  flower : ℤ → ℤ × ℤ × ℚ × Palette → GenerationConfig → List PixelPass
  isometric : ℤ → GenerationConfig → Palette → List PixelPass

/-- `gen_geometric` (src lines 135-159): `new_canvas(W, H)`, rng from
`cfg.seed or hash(cfg.prompt) % 99999` (line 138), then in-place polygons and
ellipses. -/
def gen_geometric (d : Draws) (h : PyHash) (cfg : GenerationConfig)
    (pal : Palette) : Image :=
  (new_canvas cfg.width cfg.height).applyPasses
    (d.geometric (rng_seed h cfg) cfg pal)

/-- `gen_gradient` (src lines 162-187): a computed `(H, W, 4)` array turned
into an RGBA image, composited with a same-size overlay; no rng. -/
def gen_gradient (d : Draws) (_h : PyHash) (cfg : GenerationConfig)
    (pal : Palette) : Image :=
  { mode := "RGBA", width := cfg.width, height := cfg.height,
    px := d.gradient cfg pal }

/-- `gen_glow` (src lines 190-217): `new_canvas(W, H)`, rng (line 194), glow
layers composited at the same size, blur, center dot. -/
def gen_glow (d : Draws) (h : PyHash) (cfg : GenerationConfig)
    (pal : Palette) : Image :=
  (new_canvas cfg.width cfg.height).applyPasses
    (d.glow (rng_seed h cfg) cfg pal)

/-- `gen_starburst` (src lines 220-240): a computed `(H, W, 4)` array turned
into an RGBA image; no rng. -/
def gen_starburst (d : Draws) (_h : PyHash) (cfg : GenerationConfig)
    (pal : Palette) : Image :=
  { mode := "RGBA", width := cfg.width, height := cfg.height,
    px := d.starburst cfg pal }

/-- `gen_badge` (src lines 243-272): `new_canvas(W, H)` plus in-place
rounded rectangles, star polygon and label text; no rng. -/
def gen_badge (d : Draws) (_h : PyHash) (cfg : GenerationConfig)
    (pal : Palette) : Image :=
  (new_canvas cfg.width cfg.height).applyPasses (d.badge cfg pal)

/-- `gen_mandala` (src lines 275-310): `new_canvas(W, H)`, rng (line 279),
in-place petal dots, rings and core. -/
def gen_mandala (d : Draws) (h : PyHash) (cfg : GenerationConfig)
    (pal : Palette) : Image :=
  (new_canvas cfg.width cfg.height).applyPasses
    (d.mandala (rng_seed h cfg) cfg pal)

/-- `gen_wave` (src lines 313-337): rng (line 316), a computed `(H, W, 4)`
array turned into an RGBA image, then a same-size blur. -/
def gen_wave (d : Draws) (h : PyHash) (cfg : GenerationConfig)
    (pal : Palette) : Image :=
  { mode := "RGBA", width := cfg.width, height := cfg.height,
    px := d.wave (rng_seed h cfg) cfg pal }

/-- `gen_portrait` (src lines 340-375): `new_canvas(W, H)`, same-size aura
composite, silhouette ellipses; no rng. -/
def gen_portrait (d : Draws) (_h : PyHash) (cfg : GenerationConfig)
    (pal : Palette) : Image :=
  (new_canvas cfg.width cfg.height).applyPasses (d.portrait cfg pal)

/-- `gen_landscape` (src lines 378-410): `new_canvas(W, H)`, rng (line 381),
sky composite, mountains, ground, sun. -/
def gen_landscape (d : Draws) (h : PyHash) (cfg : GenerationConfig)
    (pal : Palette) : Image :=
  (new_canvas cfg.width cfg.height).applyPasses
    (d.landscape (rng_seed h cfg) cfg pal)

/-- `gen_text_art` (src lines 413-444): `new_canvas(W, H)` plus in-place
gradient lines and text; no rng. -/
def gen_text_art (d : Draws) (_h : PyHash) (cfg : GenerationConfig)
    (pal : Palette) : Image :=
  (new_canvas cfg.width cfg.height).applyPasses (d.text_art cfg pal)

/-- `gen_pixel` (src lines 447-465): `new_canvas(W, H)`, rng (line 452),
in-place cell rectangles. -/
def gen_pixel (d : Draws) (h : PyHash) (cfg : GenerationConfig)
    (pal : Palette) : Image :=
  (new_canvas cfg.width cfg.height).applyPasses
    (d.pixel (rng_seed h cfg) cfg pal)

/-- The species table of `gen_flower` (src lines 487-509): keyword chains
checked in order against the lowered prompt; a match fixes
`(petals, layers, petal_ratio)` and REPLACES the passed palette; the generic
branch keeps the palette and takes its parameters from the rng (modelled by
the `rand` argument). -/
def flower_species (p : String) (pal : Palette) (rand : ℤ × ℤ × ℚ) :
    ℤ × ℤ × ℚ × Palette :=
  if ["mawar", "rose", "red"].any (fun k => strContains p k) then
    (5, 4, 45/100, ((200, 30, 50), (240, 80, 100), (255, 160, 140)))
  else if ["sakura", "cherry", "pink"].any (fun k => strContains p k) then
    (5, 3, 38/100, ((255, 160, 180), (255, 200, 210), (255, 230, 235)))
  else if ["lotus", "teratai"].any (fun k => strContains p k) then
    (8, 4, 42/100, ((220, 100, 160), (240, 150, 190), (255, 220, 230)))
  else if ["matahari", "sunflower", "yellow"].any (fun k => strContains p k) then
    (13, 2, 50/100, ((255, 200, 20), (255, 220, 60), (200, 130, 20)))
  else if ["dahlia"].any (fun k => strContains p k) then
    (12, 5, 35/100, ((180, 40, 120), (220, 80, 160), (255, 140, 200)))
  else if ["tulip"].any (fun k => strContains p k) then
    (6, 2, 50/100, ((200, 50, 80), (240, 100, 120), (255, 200, 180)))
  else
    (rand.1, rand.2.1, rand.2.2, pal)

/-- `gen_flower` (src lines 472-616): rng from the shared seed expression
(line 483), species selection from the lowered prompt (lines 487-509), then
an `Image.new("RGBA", (W, H), (0, 0, 0, 0))` built up by same-size aura /
petal / stamen / gloss layers. -/
def gen_flower (d : Draws) (h : PyHash) (cfg : GenerationConfig)
    (pal : Palette) : Image :=
  let seed := rng_seed h cfg
  let sp := flower_species (pyLower cfg.prompt) pal (d.flowerRand seed)
  (Image.new "RGBA" cfg.width cfg.height
    { r := 0, g := 0, b := 0, a := 0 }).applyPasses (d.flower seed sp cfg)

/-- `gen_isometric` (src lines 639-806): rng from the shared seed expression
(line 650), `Image.new("RGBA", (W, H), (0, 0, 0, 0))`, in-place cube faces
and a same-size shadow composite. -/
def gen_isometric (d : Draws) (h : PyHash) (cfg : GenerationConfig)
    (pal : Palette) : Image :=
  (Image.new "RGBA" cfg.width cfg.height
    { r := 0, g := 0, b := 0, a := 0 }).applyPasses
    (d.isometric (rng_seed h cfg) cfg pal)

/-- `STYLE_MAP` (src lines 813-827) combined with the dispatch
`STYLE_MAP.get(cfg.style, gen_geometric)` (line 849): `AUTO` is not a key of
the dict, so it takes the `gen_geometric` default. -/
def STYLE_MAP (d : Draws) :
    ImageStyle → PyHash → GenerationConfig → Palette → Image
  | .GEOMETRIC => gen_geometric d
  | .GRADIENT => gen_gradient d
  | .GLOW => gen_glow d
  | .STARBURST => gen_starburst d
  | .BADGE => gen_badge d
  | .MANDALA => gen_mandala d
  | .WAVE => gen_wave d
  | .PORTRAIT => gen_portrait d
  | .LANDSCAPE => gen_landscape d
  | .TEXT_ART => gen_text_art d
  | .PIXEL => gen_pixel d
  | .FLOWER => gen_flower d
  | .ISOMETRIC => gen_isometric d
  | .AUTO => gen_geometric d

/-- The in-place resolution clamp of `generate_image` (src lines 838-839):
`cfg.width = max(256, min(cfg.width, 1024))` and likewise for the height. -/
def clamp_cfg (cfg : GenerationConfig) : GenerationConfig :=
  { prompt := cfg.prompt,
    width := max 256 (min cfg.width 1024),
    height := max 256 (min cfg.height 1024),
    style := cfg.style, seed := cfg.seed }

/-- The in-place style resolution of `generate_image` (src lines 842-843)
applied after the clamp: `if cfg.style == AUTO: cfg.style =
detect_style(cfg.prompt)`.  The result is the final state of the mutated
`cfg` object. -/
def resolve_cfg (cfg : GenerationConfig) : GenerationConfig :=
  if (clamp_cfg cfg).style = ImageStyle.AUTO then
    { clamp_cfg cfg with style := detect_style (clamp_cfg cfg).prompt }
  else clamp_cfg cfg

/-- `generate_image` (src lines 830-861): clamp, resolve style, take the
palette, dispatch, verify alpha, package.  The mutated `cfg` object is
returned as the second component (Python mutates the caller's object in
place). -/
def generate_image (d : Draws) (h : PyHash) (cfg : GenerationConfig) :
    GenerationResult × GenerationConfig :=
  let cfg2 := resolve_cfg cfg
  let pal := prompt_to_colors cfg2.prompt
  let img := STYLE_MAP d cfg2.style h cfg2 pal
  let va := verify_alpha img
  ({ image := img, style_used := cfg2.style.value,
     alpha_verified := va.1, transparent_pct := va.2 }, cfg2)

/-!  Concrete instances used by witnesses and counterexamples. -/

/-- Drawing effects that draw nothing: every pass list is empty and every
computed pixel field is fully transparent. -/
def trivialDraws : Draws :=
  { geometric := fun _ _ _ => [],
    gradient := fun _ _ _ _ => { r := 0, g := 0, b := 0, a := 0 },
    glow := fun _ _ _ => [],
    starburst := fun _ _ _ _ => { r := 0, g := 0, b := 0, a := 0 },
    badge := fun _ _ => [],
    mandala := fun _ _ _ => [],
    wave := fun _ _ _ _ _ => { r := 0, g := 0, b := 0, a := 0 },
    portrait := fun _ _ => [],
    landscape := fun _ _ _ => [],
    text_art := fun _ _ => [],
    pixel := fun _ _ _ => [],
    flowerRand := fun _ => (5, 3, 2/5),
    flower := fun _ _ _ => [],
    isometric := fun _ _ _ => [] }

/-- A process whose builtin string hash is constantly 1. -/
def hashA : PyHash := fun _ => 1

/-- A process whose builtin string hash is constantly 2. -/
def hashB : PyHash := fun _ => 2

/-- A process whose builtin string hash is constantly 123456. -/
def hashC : PyHash := fun _ => 123456

/-- A config with the explicit nonzero seed 7. -/
def cfgSeed7 : GenerationConfig :=
  { prompt := "abc", width := 300, height := 300,
    style := ImageStyle.GEOMETRIC, seed := some 7 }

/-- A config with the explicit seed 0. -/
def cfgSeed0 : GenerationConfig :=
  { prompt := "abc", width := 300, height := 300,
    style := ImageStyle.GEOMETRIC, seed := some 0 }

/-- `cfgSeed0` with the seed removed. -/
def cfgNoSeed : GenerationConfig :=
  { prompt := "abc", width := 300, height := 300,
    style := ImageStyle.GEOMETRIC, seed := none }

/-- A 20001-pixel image with exactly one fully transparent pixel: its
transparent fraction is 1/20001, under half of one hundredth of a percent. -/
def oneClearImg : Image :=
  { mode := "RGBA", width := 20001, height := 1,
    px := fun x _ =>
      if x = 0 then { r := 0, g := 0, b := 0, a := 0 }
      else { r := 255, g := 255, b := 255, a := 255 } }

/-!  Helper lemmas. -/

lemma style_rules_ne_auto : ∀ r ∈ style_rules, r.1 ≠ ImageStyle.AUTO := by decide

lemma detect_style_ne_auto (p : String) : detect_style p ≠ ImageStyle.AUTO := by
  unfold detect_style
  cases hf : style_rules.find?
      (fun rule => rule.2.any (fun kw => strContains (pyLower p) kw)) with
  | none => simp
  | some r =>
    have hr := List.mem_of_find?_eq_some hf
    simpa using style_rules_ne_auto r hr

lemma clamp_mem (x : ℤ) :
    256 ≤ max 256 (min x 1024) ∧ max 256 (min x 1024) ≤ 1024 :=
  ⟨le_max_left _ _, max_le (by norm_num) (min_le_right _ _)⟩

lemma resolve_cfg_width (cfg : GenerationConfig) :
    (resolve_cfg cfg).width = max 256 (min cfg.width 1024) := by
  unfold resolve_cfg
  split <;> rfl

lemma resolve_cfg_height (cfg : GenerationConfig) :
    (resolve_cfg cfg).height = max 256 (min cfg.height 1024) := by
  unfold resolve_cfg
  split <;> rfl

lemma resolve_cfg_prompt (cfg : GenerationConfig) :
    (resolve_cfg cfg).prompt = cfg.prompt := by
  unfold resolve_cfg
  split <;> rfl

lemma resolve_cfg_seed (cfg : GenerationConfig) :
    (resolve_cfg cfg).seed = cfg.seed := by
  unfold resolve_cfg
  split <;> rfl

lemma resolve_cfg_style (cfg : GenerationConfig) :
    (resolve_cfg cfg).style =
      if cfg.style = ImageStyle.AUTO then detect_style cfg.prompt
      else cfg.style := by
  unfold resolve_cfg clamp_cfg
  split <;> simp_all

lemma rng_seed_some_ne (h : PyHash) (cfg : GenerationConfig) (s : ℤ)
    (hs : cfg.seed = some s) (h0 : s ≠ 0) : rng_seed h cfg = s := by
  unfold rng_seed
  rw [hs]
  simp [h0]

lemma STYLE_MAP_mode (d : Draws) (st : ImageStyle) (h : PyHash)
    (cfg : GenerationConfig) (pal : Palette) :
    (STYLE_MAP d st h cfg pal).mode = "RGBA" := by
  cases st <;> rfl

lemma STYLE_MAP_width (d : Draws) (st : ImageStyle) (h : PyHash)
    (cfg : GenerationConfig) (pal : Palette) :
    (STYLE_MAP d st h cfg pal).width = cfg.width := by
  cases st <;> rfl

lemma STYLE_MAP_height (d : Draws) (st : ImageStyle) (h : PyHash)
    (cfg : GenerationConfig) (pal : Palette) :
    (STYLE_MAP d st h cfg pal).height = cfg.height := by
  cases st <;> rfl

lemma STYLE_MAP_hash_irrel (d : Draws) (st : ImageStyle) (h1 h2 : PyHash)
    (cfg : GenerationConfig) (pal : Palette)
    (hs : rng_seed h1 cfg = rng_seed h2 cfg) :
    STYLE_MAP d st h1 cfg pal = STYLE_MAP d st h2 cfg pal := by
  cases st <;>
    simp [STYLE_MAP, gen_geometric, gen_gradient, gen_glow, gen_starburst,
      gen_badge, gen_mandala, gen_wave, gen_portrait, gen_landscape,
      gen_text_art, gen_pixel, gen_flower, gen_isometric, hs]

lemma generate_image_image (d : Draws) (h : PyHash) (cfg : GenerationConfig) :
    (generate_image d h cfg).1.image =
      STYLE_MAP d (resolve_cfg cfg).style h (resolve_cfg cfg)
        (prompt_to_colors (resolve_cfg cfg).prompt) := rfl

lemma generate_image_pct (d : Draws) (h : PyHash) (cfg : GenerationConfig) :
    (generate_image d h cfg).1.transparent_pct =
      (verify_alpha (generate_image d h cfg).1.image).2 := rfl

lemma generate_image_verified (d : Draws) (h : PyHash)
    (cfg : GenerationConfig) :
    (generate_image d h cfg).1.alpha_verified =
      (verify_alpha (generate_image d h cfg).1.image).1 := rfl

lemma generate_image_cfg_out (d : Draws) (h : PyHash)
    (cfg : GenerationConfig) :
    (generate_image d h cfg).2 = resolve_cfg cfg := rfl

lemma verify_alpha_fst (img : Image) :
    (verify_alpha img).1 = decide (0 < countAlpha0 img) := rfl

lemma verify_alpha_snd (img : Image) :
    (verify_alpha img).2 = round2 (100 * (countAlpha0 img : ℚ) /
      ((img.width : ℚ) * (img.height : ℚ))) := rfl

lemma countAlpha0_le (img : Image) :
    countAlpha0 img ≤ img.height.toNat * img.width.toNat := by
  unfold countAlpha0
  refine le_trans (List.sum_le_card_nsmul _ img.width.toNat ?_) ?_
  · intro x hx
    obtain ⟨y, _, rfl⟩ := List.mem_map.mp hx
    exact le_trans (List.length_filter_le _ _) (by simp)
  · simp [smul_eq_mul]

lemma round2_bounds {x : ℚ} (h0 : 0 ≤ x) (h1 : x ≤ 100) :
    0 ≤ round2 x ∧ round2 x ≤ 100 := by
  unfold round2
  have hl : (0 : ℤ) ≤ round (x * 100) := by
    rw [round_eq]
    exact Int.floor_nonneg.mpr (by linarith)
  have hu : round (x * 100) ≤ 10000 := by
    rw [round_eq]
    have : (⌊x * 100 + 1 / 2⌋ : ℤ) < 10001 := Int.floor_lt.mpr (by push_cast; linarith)
    omega
  constructor
  · have : (0 : ℚ) ≤ ((round (x * 100) : ℤ) : ℚ) := by exact_mod_cast hl
    positivity
  · rw [div_le_iff₀ (by norm_num : (0 : ℚ) < 100)]
    have : ((round (x * 100) : ℤ) : ℚ) ≤ 10000 := by exact_mod_cast hu
    linarith

lemma countAlpha0_all_clear (img : Image)
    (hpx : ∀ x y : ℤ, (img.px x y).a = 0) :
    countAlpha0 img = img.height.toNat * img.width.toNat := by
  unfold countAlpha0
  have hfilter : ∀ y : ℕ,
      ((List.range img.width.toNat).filter
        (fun x : ℕ => decide ((img.px (x : ℤ) (y : ℤ)).a = 0))) =
      List.range img.width.toNat := by
    intro y
    exact List.filter_eq_self.mpr (fun a _ => by simp [hpx])
  have hmap : (List.range img.height.toNat).map (fun y : ℕ =>
      ((List.range img.width.toNat).filter
        (fun x : ℕ => decide ((img.px (x : ℤ) (y : ℤ)).a = 0))).length) =
      (List.range img.height.toNat).map (fun _ : ℕ => img.width.toNat) := by
    refine List.map_congr_left ?_
    intro y _
    rw [hfilter y, List.length_range]
  rw [hmap, List.map_const', List.sum_replicate, smul_eq_mul,
    List.length_range]

lemma filter_eq_zero_range {n : ℕ} (hn : 0 < n) :
    ((List.range n).filter (fun x => decide (x = 0))).length = 1 := by
  induction n with
  | zero => exact absurd hn (by norm_num)
  | succ k ih =>
    cases k with
    | zero => rfl
    | succ m =>
      rw [List.range_succ, List.filter_append, List.length_append,
        ih (Nat.succ_pos m)]
      simp

lemma countAlpha0_oneClear : countAlpha0 oneClearImg = 1 := by
  have hpred : (fun x : ℕ =>
      decide ((oneClearImg.px (x : ℤ) ((0 : ℕ) : ℤ)).a = 0)) =
      (fun x : ℕ => decide (x = 0)) := by
    funext x
    by_cases hx : x = 0 <;> simp [oneClearImg, hx]
  have h1 : oneClearImg.height.toNat = 1 := rfl
  have h2 : oneClearImg.width.toNat = 20001 := rfl
  unfold countAlpha0
  rw [h1, h2, show List.range 1 = [0] from rfl]
  simp only [List.map_cons, List.map_nil, List.sum_cons, List.sum_nil,
    add_zero]
  rw [hpred]
  exact filter_eq_zero_range (by norm_num)

/-!  Claim theorems. -/

/-- C1 (counterexample): as stated, the claim is false.  With the same
prompt, the same explicit seed `0` and the same non-auto style, the
pseudo-random source is NOT seeded from `config.seed`: two processes whose
builtin string hashes differ (`hashA`, `hashB`) seed the generators
differently, because `cfg.seed or hash(cfg.prompt) % 99999` discards a
falsy seed `0`. -/
theorem seed_zero_breaks_determinism_cex :
    cfgSeed0.seed = some 0 ∧ cfgSeed0.style ≠ ImageStyle.AUTO ∧
    rng_seed hashA cfgSeed0 ≠ rng_seed hashB cfgSeed0 ∧
    rng_seed hashA cfgSeed0 ≠ 0 := by
  refine ⟨rfl, by decide, by decide, by decide⟩

/-- C1 (amended): for every two invocations of `generate_image` with the
same config carrying an explicit NONZERO seed and a non-auto style, the
results are identical even across processes with different builtin string
hashes (`h1`, `h2`): every generator's pseudo-random source is seeded from
`config.seed` when that seed is truthy, and nothing else in the pipeline
depends on the process hash. -/
theorem generate_image_deterministic_nonzero_seed (d : Draws)
    (h1 h2 : PyHash) (cfg : GenerationConfig) (s : ℤ)
    (hs : cfg.seed = some s) (hnz : s ≠ 0)
    (_hst : cfg.style ≠ ImageStyle.AUTO) :
    generate_image d h1 cfg = generate_image d h2 cfg := by
  have hseed : rng_seed h1 (resolve_cfg cfg) = rng_seed h2 (resolve_cfg cfg) := by
    rw [rng_seed_some_ne h1 _ s (by rw [resolve_cfg_seed, hs]) hnz,
      rng_seed_some_ne h2 _ s (by rw [resolve_cfg_seed, hs]) hnz]
  have himg := STYLE_MAP_hash_irrel d (resolve_cfg cfg).style h1 h2
    (resolve_cfg cfg) (prompt_to_colors (resolve_cfg cfg).prompt) hseed
  exact congrArg (fun img : Image =>
    (({ image := img, style_used := (resolve_cfg cfg).style.value,
        alpha_verified := (verify_alpha img).1,
        transparent_pct := (verify_alpha img).2 } : GenerationResult),
      resolve_cfg cfg)) himg

/-- C1 (witness): the determinism theorem applied to the concrete config
with explicit seed 7 and two distinct process hashes. -/
theorem generate_image_deterministic_nonzero_seed_w :
    cfgSeed7.seed = some 7 ∧ (7 : ℤ) ≠ 0 ∧
    cfgSeed7.style ≠ ImageStyle.AUTO ∧
    generate_image trivialDraws hashA cfgSeed7 =
      generate_image trivialDraws hashB cfgSeed7 :=
  ⟨rfl, by decide, by decide,
    generate_image_deterministic_nonzero_seed trivialDraws hashA hashB
      cfgSeed7 7 rfl (by decide) (by decide)⟩

/-- C7: for the prompt "red rose" the flower generator's species table
selects the rose entry — 5 petals, 4 layers (petal ratio 0.45), and the
rose override palette ((200,30,50), (240,80,100), (255,160,140)) —
regardless of the palette passed in and of the rng draws. -/
theorem flower_species_red_rose (pal : Palette) (rand : ℤ × ℤ × ℚ) :
    flower_species (pyLower "red rose") pal rand =
      (5, 4, 45/100, ((200, 30, 50), (240, 80, 100), (255, 160, 140))) := rfl

/-- C8: every pixel of a newly constructed canvas (`new_canvas`) has
alpha exactly 0 — the canvas is fully transparent. -/
theorem new_canvas_alpha_zero (width height x y : ℤ) :
    ((new_canvas width height).px x y).a = 0 := rfl

/-- C9: `generate_image` mutates the passed config in place: afterwards
width and height hold the clamped values in [256, 1024], style holds the
resolved non-auto style (`detect_style` of the prompt when it was `auto`,
unchanged otherwise), and the prompt and seed fields are unchanged. -/
theorem generate_image_mutates_cfg (d : Draws) (h : PyHash)
    (cfg : GenerationConfig) :
    (generate_image d h cfg).2.width = max 256 (min cfg.width 1024) ∧
    (generate_image d h cfg).2.height = max 256 (min cfg.height 1024) ∧
    256 ≤ (generate_image d h cfg).2.width ∧
    (generate_image d h cfg).2.width ≤ 1024 ∧
    256 ≤ (generate_image d h cfg).2.height ∧
    (generate_image d h cfg).2.height ≤ 1024 ∧
    (generate_image d h cfg).2.style =
      (if cfg.style = ImageStyle.AUTO then detect_style cfg.prompt
       else cfg.style) ∧
    (generate_image d h cfg).2.style ≠ ImageStyle.AUTO ∧
    (generate_image d h cfg).2.prompt = cfg.prompt ∧
    (generate_image d h cfg).2.seed = cfg.seed := by
  rw [generate_image_cfg_out, resolve_cfg_width, resolve_cfg_height,
    resolve_cfg_style, resolve_cfg_prompt, resolve_cfg_seed]
  refine ⟨rfl, rfl, (clamp_mem cfg.width).1, (clamp_mem cfg.width).2,
    (clamp_mem cfg.height).1, (clamp_mem cfg.height).2, rfl, ?_, rfl, rfl⟩
  split
  · exact detect_style_ne_auto cfg.prompt
  · assumption

/-- C10: a config with explicit seed 0 is treated as if no seed were
given — the truthiness expression `cfg.seed or hash(cfg.prompt) % 99999`
selects the prompt-hash fallback, so the rng seed equals
`hash(prompt) % 99999` (the same value as with `seed=None`), not 0; in
particular `gen_geometric` seeds its generator from the prompt hash. -/
theorem rng_seed_zero_fallback (d : Draws) (h : PyHash)
    (cfg : GenerationConfig) (h0 : cfg.seed = some 0) :
    rng_seed h cfg = h cfg.prompt % 99999 ∧
    rng_seed h cfg = rng_seed h
      { prompt := cfg.prompt, width := cfg.width, height := cfg.height,
        style := cfg.style, seed := none } ∧
    gen_geometric d h cfg (prompt_to_colors cfg.prompt) =
      (new_canvas cfg.width cfg.height).applyPasses
        (d.geometric (h cfg.prompt % 99999) cfg
          (prompt_to_colors cfg.prompt)) := by
  have h1 : rng_seed h cfg = h cfg.prompt % 99999 := by
    unfold rng_seed
    rw [h0]
    simp
  refine ⟨h1, by rw [h1]; rfl, ?_⟩
  unfold gen_geometric
  rw [h1]

/-- C10 (witness): the fallback theorem applied to the concrete config
`cfgSeed0` in a process whose builtin hash is constantly 123456. -/
theorem rng_seed_zero_fallback_w :
    cfgSeed0.seed = some 0 ∧ rng_seed hashC cfgSeed0 = 23457 ∧
    rng_seed hashC cfgSeed0 = rng_seed hashC cfgNoSeed :=
  ⟨rfl,
   by rw [(rng_seed_zero_fallback trivialDraws hashC cfgSeed0 rfl).1]; decide,
   (rng_seed_zero_fallback trivialDraws hashC cfgSeed0 rfl).2.1⟩

/-- C2: for every `GenerationConfig`, the image `generate_image` returns is
an RGBA buffer (mode "RGBA", four integer channels per pixel) whose width
and height are the requested ones clamped into [256, 1024]; in particular a
2000 by 2000 request yields a 1024 by 1024 image and a 100 by 100 request
yields a 256 by 256 image. -/
theorem generate_image_dims_rgba (d : Draws) (h : PyHash)
    (cfg : GenerationConfig) :
    (generate_image d h cfg).1.image.mode = "RGBA" ∧
    (generate_image d h cfg).1.image.width = max 256 (min cfg.width 1024) ∧
    (generate_image d h cfg).1.image.height = max 256 (min cfg.height 1024) ∧
    256 ≤ (generate_image d h cfg).1.image.width ∧
    (generate_image d h cfg).1.image.width ≤ 1024 ∧
    256 ≤ (generate_image d h cfg).1.image.height ∧
    (generate_image d h cfg).1.image.height ≤ 1024 ∧
    (generate_image d h { prompt := cfg.prompt, width := 2000, height := 2000, style := cfg.style, seed := cfg.seed }).1.image.width = 1024 ∧
    (generate_image d h { prompt := cfg.prompt, width := 2000, height := 2000, style := cfg.style, seed := cfg.seed }).1.image.height = 1024 ∧
    (generate_image d h { prompt := cfg.prompt, width := 100, height := 100, style := cfg.style, seed := cfg.seed }).1.image.width = 256 ∧
    (generate_image d h { prompt := cfg.prompt, width := 100, height := 100, style := cfg.style, seed := cfg.seed }).1.image.height = 256 := by
  have base : ∀ c : GenerationConfig,
      (generate_image d h c).1.image.mode = "RGBA" ∧
      (generate_image d h c).1.image.width = max 256 (min c.width 1024) ∧
      (generate_image d h c).1.image.height = max 256 (min c.height 1024) := by
    intro c
    rw [generate_image_image, STYLE_MAP_mode, STYLE_MAP_width,
      STYLE_MAP_height, resolve_cfg_width, resolve_cfg_height]
    exact ⟨rfl, rfl, rfl⟩
  obtain ⟨hm, hw, hh⟩ := base cfg
  refine ⟨hm, hw, hh, ?_, ?_, ?_, ?_, ?_, ?_, ?_, ?_⟩
  · rw [hw]; exact (clamp_mem cfg.width).1
  · rw [hw]; exact (clamp_mem cfg.width).2
  · rw [hh]; exact (clamp_mem cfg.height).1
  · rw [hh]; exact (clamp_mem cfg.height).2
  · exact (base _).2.1.trans (show max 256 (min (2000 : ℤ) 1024) = 1024 by decide)
  · exact (base _).2.2.trans (show max 256 (min (2000 : ℤ) 1024) = 1024 by decide)
  · exact (base _).2.1.trans (show max 256 (min (100 : ℤ) 1024) = 256 by decide)
  · exact (base _).2.2.trans (show max 256 (min (100 : ℤ) 1024) = 256 by decide)

/-- C6: `detect_style` is a pure function of the lower-cased prompt; a
prompt matching any flower-rule keyword yields `FLOWER` even when it also
matches a city (isometric-rule) keyword, because the flower rule is first;
and a prompt matching no rule at all yields the `GEOMETRIC` default. -/
theorem detect_style_order_and_default (p q : String) :
    ((["bunga", "flower", "petal", "rose", "mawar", "sakura", "flora",
       "bloom", "blossom", "lotus", "teratai", "dahlia", "tulip"].any
        (fun kw => strContains (pyLower p) kw) = true) →
     (["isometric", "isometri", "3d", "cube", "kubus", "kota", "city",
       "building", "gedung", "perspektif", "voxel", "minecraft"].any
        (fun kw => strContains (pyLower p) kw) = true) →
     detect_style p = ImageStyle.FLOWER) ∧
    ((style_rules.all (fun rule =>
        rule.2.all (fun kw => !strContains (pyLower p) kw)) = true) →
     detect_style p = ImageStyle.GEOMETRIC) ∧
    (pyLower p = pyLower q → detect_style p = detect_style q) := by
  refine ⟨?_, ?_, ?_⟩
  · intro hf _
    unfold detect_style style_rules
    rw [List.find?_cons_of_pos _ (by exact hf)]
    rfl
  · intro hnone
    unfold detect_style
    have hfind : style_rules.find?
        (fun rule => rule.2.any (fun kw => strContains (pyLower p) kw)) =
        none := by
      rw [List.find?_eq_none]
      intro rule hr
      have hall := List.all_eq_true.mp hnone rule hr
      simp only [List.all_eq_true, Bool.not_eq_eq_eq_not, Bool.not_true] at hall
      intro hcon
      obtain ⟨kw, hkw, hc⟩ := List.any_eq_true.mp hcon
      rw [hall kw hkw] at hc
      exact Bool.false_ne_true hc
    rw [hfind]
    rfl
  · intro hpq
    unfold detect_style
    rw [hpq]

/-- C6 (witness): the three parts of the `detect_style` theorem at
concrete prompts: "Rose City" matches a flower and a city keyword and
resolves to FLOWER; "zWq" matches no rule and resolves to GEOMETRIC; and
two prompts differing only in letter case detect the same style. -/
theorem detect_style_order_and_default_w :
    detect_style "Rose City" = ImageStyle.FLOWER ∧
    detect_style "zWq" = ImageStyle.GEOMETRIC ∧
    detect_style "RoSe" = detect_style "rOsE" :=
  ⟨(detect_style_order_and_default "Rose City" "Rose City").1
     (by decide) (by decide),
   (detect_style_order_and_default "zWq" "zWq").2.1 (by decide),
   (detect_style_order_and_default "RoSe" "rOsE").2.2 (by decide)⟩

/-- C3: the `transparent_pct` field of every result of `generate_image`
equals 100 times the number of pixels whose alpha is exactly 0, divided by
the total pixel count, rounded to 2 decimal places, and always lies in
[0, 100]. -/
theorem transparent_pct_formula_and_range (d : Draws) (h : PyHash)
    (cfg : GenerationConfig) :
    (generate_image d h cfg).1.transparent_pct =
      round2 (100 * (countAlpha0 (generate_image d h cfg).1.image : ℚ) /
        (((generate_image d h cfg).1.image.width : ℚ) *
         ((generate_image d h cfg).1.image.height : ℚ))) ∧
    0 ≤ (generate_image d h cfg).1.transparent_pct ∧
    (generate_image d h cfg).1.transparent_pct ≤ 100 := by
  have heq : (generate_image d h cfg).1.transparent_pct =
      round2 (100 * (countAlpha0 (generate_image d h cfg).1.image : ℚ) /
        (((generate_image d h cfg).1.image.width : ℚ) *
         ((generate_image d h cfg).1.image.height : ℚ))) := rfl
  set img := (generate_image d h cfg).1.image with himg
  have hW : img.width = max 256 (min cfg.width 1024) := by
    rw [himg, generate_image_image, STYLE_MAP_width, resolve_cfg_width]
  have hH : img.height = max 256 (min cfg.height 1024) := by
    rw [himg, generate_image_image, STYLE_MAP_height, resolve_cfg_height]
  have hW0 : (0 : ℤ) < img.width := by
    rw [hW]
    have := (clamp_mem cfg.width).1
    omega
  have hH0 : (0 : ℤ) < img.height := by
    rw [hH]
    have := (clamp_mem cfg.height).1
    omega
  have hWq : (0 : ℚ) < (img.width : ℚ) := by exact_mod_cast hW0
  have hHq : (0 : ℚ) < (img.height : ℚ) := by exact_mod_cast hH0
  have hden : (0 : ℚ) < (img.width : ℚ) * (img.height : ℚ) := mul_pos hWq hHq
  have hWt : (img.width.toNat : ℤ) = img.width := Int.toNat_of_nonneg hW0.le
  have hHt : (img.height.toNat : ℤ) = img.height := Int.toNat_of_nonneg hH0.le
  have hcnt : (countAlpha0 img : ℚ) ≤ (img.width : ℚ) * (img.height : ℚ) := by
    have h1 : countAlpha0 img ≤ img.height.toNat * img.width.toNat :=
      countAlpha0_le img
    calc (countAlpha0 img : ℚ)
        ≤ ((img.height.toNat * img.width.toNat : ℕ) : ℚ) := by
          exact_mod_cast h1
      _ = ((img.height.toNat : ℤ) : ℚ) * ((img.width.toNat : ℤ) : ℚ) := by
          push_cast
          ring
      _ = (img.width : ℚ) * (img.height : ℚ) := by
          rw [hWt, hHt]
          ring
  have hq0 : 0 ≤ 100 * (countAlpha0 img : ℚ) /
      ((img.width : ℚ) * (img.height : ℚ)) := by positivity
  have hq100 : 100 * (countAlpha0 img : ℚ) /
      ((img.width : ℚ) * (img.height : ℚ)) ≤ 100 := by
    rw [div_le_iff₀ hden]
    nlinarith [hcnt]
  refine ⟨heq, ?_, ?_⟩
  · rw [heq]
    exact (round2_bounds hq0 hq100).1
  · rw [heq]
    exact (round2_bounds hq0 hq100).2

/-- C4 (counterexample): `alpha_verified` is not equivalent to
`transparent_pct > 0`: on a 20001-pixel image with exactly one fully
transparent pixel, `verify_alpha` reports `alpha_verified = True` while the
rounded percentage is 0.00. -/
theorem alpha_verified_iff_pct_pos_cex :
    ¬ (((verify_alpha oneClearImg).1 = true) ↔
       0 < (verify_alpha oneClearImg).2) := by
  have h1 : (verify_alpha oneClearImg).1 = true := by
    rw [verify_alpha_fst, countAlpha0_oneClear]
    decide
  have h2 : (verify_alpha oneClearImg).2 = 0 := by
    rw [verify_alpha_snd, countAlpha0_oneClear,
      show oneClearImg.width = 20001 from rfl,
      show oneClearImg.height = 1 from rfl]
    unfold round2
    rw [round_eq]
    norm_num
  intro hiff
  have hc := hiff.mp h1
  rw [h2] at hc
  exact lt_irrefl 0 hc

/-- C4 (amended): `alpha_verified` is true exactly when at least one pixel
has alpha exactly 0 (`any(alpha == 0)`); `transparent_pct > 0` implies
`alpha_verified`, but not conversely, because the percentage is rounded to
two decimals. -/
theorem alpha_verified_iff_some_transparent (d : Draws) (h : PyHash)
    (cfg : GenerationConfig) :
    ((generate_image d h cfg).1.alpha_verified = true ↔
      0 < countAlpha0 (generate_image d h cfg).1.image) ∧
    (0 < (generate_image d h cfg).1.transparent_pct →
      (generate_image d h cfg).1.alpha_verified = true) := by
  constructor
  · rw [generate_image_verified, verify_alpha_fst]
    exact decide_eq_true_iff
  · intro hpct
    rw [generate_image_verified, verify_alpha_fst, decide_eq_true_iff]
    by_contra hz
    have hz0 : countAlpha0 (generate_image d h cfg).1.image = 0 := by omega
    have hp0 : (generate_image d h cfg).1.transparent_pct = 0 := by
      rw [generate_image_pct, verify_alpha_snd, hz0]
      unfold round2
      rw [round_eq]
      norm_num
    rw [hp0] at hpct
    exact lt_irrefl 0 hpct

lemma trivial_img_clear :
    ∀ x y : ℤ,
      ((generate_image trivialDraws hashA cfgSeed7).1.image.px x y).a = 0 :=
  fun _ _ => rfl

lemma trivial_pct :
    (generate_image trivialDraws hashA cfgSeed7).1.transparent_pct = 100 := by
  have hW : (generate_image trivialDraws hashA cfgSeed7).1.image.width
      = 300 := by
    rw [generate_image_image, STYLE_MAP_width, resolve_cfg_width]
    decide
  have hH : (generate_image trivialDraws hashA cfgSeed7).1.image.height
      = 300 := by
    rw [generate_image_image, STYLE_MAP_height, resolve_cfg_height]
    decide
  have hcnt : countAlpha0 (generate_image trivialDraws hashA cfgSeed7).1.image
      = 90000 := by
    rw [countAlpha0_all_clear _ trivial_img_clear, hW, hH]
    decide
  rw [generate_image_pct, verify_alpha_snd, hcnt, hW, hH]
  unfold round2
  rw [round_eq]
  norm_num

/-- C4 (witness): the amended theorem applied at a concrete config whose
(trivially drawn) result is fully transparent: the percentage is 100 and
`alpha_verified` holds. -/
theorem alpha_verified_iff_some_transparent_w :
    0 < (generate_image trivialDraws hashA cfgSeed7).1.transparent_pct ∧
    (generate_image trivialDraws hashA cfgSeed7).1.alpha_verified = true := by
  have hp : 0 <
      (generate_image trivialDraws hashA cfgSeed7).1.transparent_pct := by
    rw [trivial_pct]
    norm_num
  exact ⟨hp,
    (alpha_verified_iff_some_transparent trivialDraws hashA cfgSeed7).2 hp⟩

lemma md5_zWq : md5hex6 "zWq" = 5824181 := by decide

lemma find_zWq :
    palettes.find? (fun kc => palette_match (pyLower "zWq") kc.1) = none := by
  decide

lemma hash_palette_zWq :
    hash_palette "zWq" =
      ((119, 229, 68), (102, 181, 255), (178, 35, 138)) := by
  unfold hash_palette
  rw [md5_zWq]
  norm_num [rgb_of_hsv, hsv_to_rgb, pyInt, Int.fract]

lemma hash_palette_spec_zWq :
    hash_palette_spec "zWq" =
      ((119, 229, 68), (102, 153, 255), (178, 35, 86)) := by
  unfold hash_palette_spec
  rw [md5_zWq]
  norm_num [rgb_of_hsv, hsv_to_rgb, pyInt, Int.fract]

lemma prompt_to_colors_zWq :
    prompt_to_colors "zWq" =
      ((119, 229, 68), (102, 181, 255), (178, 35, 138)) := by
  unfold prompt_to_colors
  rw [find_zWq]
  exact hash_palette_zWq

/-- C5 (counterexample): for the keyword-free prompt "zWq" the palette the
code computes differs from the palette the spec describes: the code offsets
the secondary and tertiary hues by 0.3 and 0.6 of a turn, not 0.33 and
0.66. -/
theorem hash_fallback_offsets_cex :
    prompt_to_colors "zWq" ≠ hash_palette_spec "zWq" := by
  rw [prompt_to_colors_zWq, hash_palette_spec_zWq]
  decide

/-- C5 (amended): for every prompt matching no keyword entry of the palette
table, `prompt_to_colors` returns the md5-hash fallback palette: base hue =
(md5 hash of the prompt) mod 360, primary = HSV(hue, 0.7, 0.9), secondary =
HSV(hue + 0.3 turn, 0.6, 1.0), tertiary = HSV(hue + 0.6 turn, 0.8, 0.7),
each converted to RGB bytes; the hash is md5, hence platform stable, so the
same prompt always yields the same palette. -/
theorem hash_fallback_palette (prompt : String)
    (hmatch : palettes.all
      (fun kc => !palette_match (pyLower prompt) kc.1) = true) :
    prompt_to_colors prompt =
      (rgb_of_hsv ((((md5hex6 prompt : ℤ) % 360 : ℤ) : ℚ) / 360)
        (7/10) (9/10),
       rgb_of_hsv (Int.fract
         ((((md5hex6 prompt : ℤ) % 360 : ℤ) : ℚ) / 360 + 3/10)) (6/10) 1,
       rgb_of_hsv (Int.fract
         ((((md5hex6 prompt : ℤ) % 360 : ℤ) : ℚ) / 360 + 6/10))
        (8/10) (7/10)) ∧
    prompt_to_colors prompt = hash_palette prompt := by
  have hfind : palettes.find?
      (fun kc => palette_match (pyLower prompt) kc.1) = none := by
    rw [List.find?_eq_none]
    intro kc hkc
    have hb := List.all_eq_true.mp hmatch kc hkc
    simp only [Bool.not_eq_eq_eq_not, Bool.not_true] at hb
    simp [hb]
  have h2 : prompt_to_colors prompt = hash_palette prompt := by
    unfold prompt_to_colors
    rw [hfind]
  exact ⟨h2.trans rfl, h2⟩

/-- C5 (witness): the fallback theorem applied to the concrete keyword-free
prompt "zWq". -/
theorem hash_fallback_palette_w :
    (palettes.all (fun kc => !palette_match (pyLower "zWq") kc.1) = true) ∧
    prompt_to_colors "zWq" = hash_palette "zWq" :=
  ⟨by decide, (hash_fallback_palette "zWq" (by decide)).2⟩

end ImageEngine
